import Mathlib

set_option maxRecDepth 8000

/-! Shallow embedding of the three SharePoint client example scripts of this
    repository: `sharepoint_app_only_example.py`, `sharepoint_msal_example.py`
    and `sharepoint_office365_client_example.py`.  Network, filesystem,
    MSAL-library and Office365-library effects are supplied by explicit
    environment records; every modelled operation returns the list of
    observable events it performed together with its Python return value.
    A result of type `Except PyErr α` models a Python call whose exceptions
    can escape to the caller; operations whose bodies catch every exception
    return a plain value. -/

/-- Python exception values, tagged by the fault kind that raised them:
    transport faults from the requests library, JSON-decoding faults from
    `response.json()`, local filesystem faults (OSError family), faults
    raised inside the office365/msal client libraries, and the builtin
    IndexError / KeyError. -/
inductive PyErr where
  | transport (m : String)
  | jsonDecode (m : String)
  | fs (m : String)
  | lib (m : String)
  | indexError
  | keyError (k : String)
  deriving Repr, DecidableEq

/-- Rendering of an exception as Python `str(e)`, as used in the printed
    diagnostics of the scripts. -/
def PyErr.msg : PyErr → String
  | .transport m => m
  | .jsonDecode m => m
  | .fs m => m
  | .lib m => m
  | .indexError => "list index out of range"
  | .keyError k => k

/-- JSON values, the result of a successful `response.json()` call. -/
inductive Json where
  | null
  | bool (b : Bool)
  | num (n : Int)
  | str (s : String)
  | arr (elems : List Json)
  | obj (fields : List (String × Json))
  deriving Repr

/-- An HTTP response as seen through the requests library: status code,
    headers, body text, the outcome of parsing the body as JSON (an error
    models `response.json()` raising on a malformed body), and the raw
    body bytes (`response.content`). -/
structure HttpResponse where
  status : Nat
  headers : List (String × String)
  text : String
  jsonResult : Except PyErr Json
  content : List Nat

/-- Observable events performed by the modelled operations: HTTP requests
    issued through the requests library, MSAL token-acquisition calls,
    local filesystem actions, the pandas spreadsheet parse, printed
    diagnostics, and the remote queries executed through the office365
    client context. -/
inductive Event where
  | get (url : String) (headers : List (String × String))
  | post (url : String) (body : List (String × String)) (headers : List (String × String))
  | acquireSilent
  | acquireForClient
  | fsMakedirs (path : String)
  | fsOpenWrite (path : String)
  | fsRemoved (path : String)
  | readExcel (path : String) (sheet : Option String)
  | printed (m : String)
  | ctxWebQuery
  | ctxListsQuery
  | ctxFolderFilesQuery (folderUrl : String)
  | ctxRootFilesQuery (library : String)
  | ctxDownload (fileUrl : String)
  | ctxItemsQuery (listName : String)
  deriving Repr, DecidableEq

/-- The network environment backing the requests library: the outcome of a
    GET or POST to a given URL with given headers (POST also carries the
    url-encoded form body).  An `Except.error` outcome models the call
    raising a transport exception. -/
structure HttpEnv where
  get : String → List (String × String) → Except PyErr HttpResponse
  post : String → List (String × String) → List (String × String) → Except PyErr HttpResponse

/-- Python f-string interpolation of an optional string: `None` renders as
    the literal string "None". -/
def pyStr : Option String → String
  | none => "None"
  | some s => s

/-- Python truthiness of an optional string (`if not x` style tests):
    None and the empty string are falsy. -/
def pyTruthy : Option String → Bool
  | none => false
  | some s => !(s == "")

/-- Python list indexing `l[i]` for a non-negative index: raises IndexError
    when out of range. -/
def pyIndex {α : Type} (l : List α) (i : Nat) : Except PyErr α :=
  match l.get? i with
  | some a => .ok a
  | none => .error .indexError

/-- Lookup in a Python dict modelled as an association list (first match). -/
def dictGet {α : Type} : List (String × α) → String → Option α
  | [], _ => none
  | (k, v) :: rest, key => if k == key then some v else dictGet rest key

/-- Worker for the Python `str.split` model: scans the characters left to
    right, splitting at each leftmost non-overlapping occurrence of the
    (non-empty) separator.  The fuel argument, initialised to the string
    length, only makes the recursion structural; every step consumes at
    least one character, so the fuel never runs out on the initial call. -/
def pySplitAux (sep : List Char) : Nat → List Char → List Char → List (List Char)
  | _, acc, [] => [acc.reverse]
  | 0, acc, rest => [acc.reverse ++ rest]
  | Nat.succ fuel, acc, c :: rest =>
    if sep.isPrefixOf (c :: rest) then
      acc.reverse :: pySplitAux sep fuel [] (List.drop sep.length (c :: rest))
    else
      pySplitAux sep fuel (c :: acc) rest

/-- Model of Python `s.split(sep)` for a non-empty separator: the maximal
    list of fragments separated by leftmost non-overlapping occurrences of
    `sep`; adjacent separators yield empty fragments.  (Python raises on an
    empty separator; that case is never exercised by the scripts.) -/
def pySplit (s sep : String) : List String :=
  if sep == "" then [s]
  else (pySplitAux sep.data s.data.length [] s.data).map (fun l => ⟨l⟩)

/-- Python substring test `sub in s` for a non-empty literal `sub`: the
    split at `sub` has more than one fragment exactly when `sub` occurs
    in `s`. -/
def pyContains (sub s : String) : Bool := (pySplit s sub).length != 1

/-- Model of Python `str.lower` (the file suffixes compared by the scripts
    are ASCII). -/
def pyLower (s : String) : String := ⟨s.data.map Char.toLower⟩

/-- Model of Python `str.endswith` for a single suffix. -/
def pyEndsWith (s suffix : String) : Bool := List.isSuffixOf suffix.data s.data

/-- Joining of fragments with a separator, the model of
    Python `sep.join(parts)`. -/
def joinSep (sep : String) : List String → String
  | [] => ""
  | [x] => x
  | x :: xs => x ++ sep ++ joinSep sep xs

/-! Embedding of `sharepoint_app_only_example.py`: the `SharePointAppOnlyAuth`
    helper and the `SharePointRestClient` session component. -/

namespace AppOnly

/-- Translation of the tenant-name extraction in `SharePointAppOnlyAuth.__init__`:
    `site_url.split('//')[1].split('.')[0]`; the subscript `[1]` raises
    IndexError when the URL has no `//`. -/
def tenantNameOf (site_url : String) : Except PyErr String := do
  let afterSlashes ← pyIndex (pySplit site_url "//") 1
  pyIndex (pySplit afterSlashes ".") 0

/-- Translation of `SharePointAppOnlyAuth._get_realm`.  It issues an
    unauthenticated GET to `{site_url}/_vti_bin/client.svc` (requests default
    headers are modelled as the empty header list), reads the
    `WWW-Authenticate` response header, and when the header contains
    `realm=` parses the quoted realm by
    `auth_header.split('realm="')[1].split('"')[0]`.  Every exception
    (transport fault, IndexError from the subscript) is caught by the
    surrounding `try` and yields the fallback
    `{tenant_name}.sharepoint.com`, as does a missing header or a header
    without `realm=`. -/
def get_realm (env : HttpEnv) (site_url tenant_name : String) : String :=
  let fallback := tenant_name ++ ".sharepoint.com"
  match env.get (site_url ++ "/_vti_bin/client.svc") [] with
  | .error _ => fallback
  | .ok resp =>
    match dictGet resp.headers "WWW-Authenticate" with
    | none => fallback
    | some auth_header =>
      if pyContains "realm=" auth_header then
        match pyIndex (pySplit auth_header "realm=\"") 1 with
        | .error _ => fallback
        | .ok part =>
          match pyIndex (pySplit part "\"") 0 with
          | .error _ => fallback
          | .ok realm => realm
      else fallback

/-- State of a `SharePointAppOnlyAuth` object: constructor arguments plus the
    derived tenant name and realm, and the mutable cached `access_token`
    (None until a successful acquisition). -/
structure Auth where
  site_url : String
  client_id : String
  client_secret : String
  tenant_name : String
  realm : String
  access_token : Option String

/-- Translation of `SharePointAppOnlyAuth.get_access_token`.  Builds the STS
    URL, principal and resource identifiers, POSTs the url-encoded
    client-credentials body, and on HTTP 200 parses the JSON body and caches
    its `access_token` field.  A non-200 status prints a diagnostic and
    returns None; every exception inside the `try` (transport fault,
    IndexError from the resource subscripts, a malformed JSON body, a missing
    `access_token` key) is caught and converted to a printed diagnostic and a
    None return.  The result is (events, new cached token state, return
    value). -/
def get_access_token (env : HttpEnv) (a : Auth) :
    List Event × Option String × Option String :=
  let sts_url := "https://accounts.accesscontrol.windows.net/" ++ a.realm ++ "/tokens/OAuth/2"
  let principal := a.client_id ++ "@" ++ a.realm
  let hostPart : Except PyErr String := do
    let afterSlashes ← pyIndex (pySplit a.site_url "//") 1
    pyIndex (pySplit afterSlashes "/") 0
  match hostPart with
  | .error e =>
    ([.printed ("Error getting access token: " ++ e.msg)], a.access_token, none)
  | .ok host =>
    let resource := "00000003-0000-0ff1-ce00-000000000000/" ++ host ++ "@" ++ a.realm
    let body := [("grant_type", "client_credentials"), ("client_id", principal),
                 ("client_secret", a.client_secret), ("resource", resource)]
    let hdrs := [("Content-Type", "application/x-www-form-urlencoded")]
    match env.post sts_url body hdrs with
    | .error e =>
      ([.post sts_url body hdrs, .printed ("Error getting access token: " ++ e.msg)],
       a.access_token, none)
    | .ok resp =>
      if resp.status == 200 then
        match resp.jsonResult with
        | .error e =>
          ([.post sts_url body hdrs, .printed ("Error getting access token: " ++ e.msg)],
           a.access_token, none)
        | .ok j =>
          match j with
          | .obj fields =>
            match dictGet fields "access_token" with
            | some (.str t) =>
              ([.post sts_url body hdrs,
                .printed "Successfully obtained access token using App-Only authentication"],
               some t, some t)
            | _ =>
              ([.post sts_url body hdrs,
                .printed ("Error getting access token: " ++ (PyErr.keyError "access_token").msg)],
               a.access_token, none)
          | _ =>
            ([.post sts_url body hdrs,
              .printed ("Error getting access token: " ++ (PyErr.keyError "access_token").msg)],
             a.access_token, none)
      else
        ([.post sts_url body hdrs,
          .printed ("Failed to get access token: " ++ toString resp.status ++ " - " ++ resp.text)],
         a.access_token, none)

/-- State of a `SharePointRestClient` object: the constructor arguments.  The
    `access_token` parameter is stored as given; an unset (None) value models
    a caller that constructed the client without a real token. -/
structure RestClient where
  site_url : String
  access_token : Option String

/-- Translation of `SharePointRestClient.__init__`'s `self.api_base`. -/
def RestClient.api_base (c : RestClient) : String := c.site_url ++ "/_api"

/-- Translation of `SharePointRestClient.get_headers`: an f-string renders the
    stored token (the literal "None" when unset). -/
def RestClient.headers (c : RestClient) : List (String × String) :=
  [("Authorization", "Bearer " ++ pyStr c.access_token),
   ("Accept", "application/json;odata=verbose"),
   ("Content-Type", "application/json;odata=verbose")]

/-- Shared body of the four JSON-returning `SharePointRestClient` read
    operations: GET the url with the bearer headers; on HTTP 200 return
    `response.json()` (whose parse error propagates), otherwise print the
    diagnostic and return the empty dict.  A transport fault from
    `requests.get` propagates to the caller: the source has no try/except
    here. -/
def restGetJson (env : HttpEnv) (c : RestClient) (url errHead : String) :
    List Event × Except PyErr Json :=
  let hdrs := c.headers
  match env.get url hdrs with
  | .error e => ([.get url hdrs], .error e)
  | .ok resp =>
    if resp.status == 200 then
      ([.get url hdrs], resp.jsonResult)
    else
      ([.get url hdrs,
        .printed (errHead ++ toString resp.status ++ " - " ++ resp.text)],
       .ok (Json.obj []))

/-- Translation of `SharePointRestClient.get_web_info`. -/
def get_web_info (env : HttpEnv) (c : RestClient) : List Event × Except PyErr Json :=
  restGetJson env c (c.api_base ++ "/web") "Error getting web info: "

/-- Translation of `SharePointRestClient.get_lists`. -/
def get_lists (env : HttpEnv) (c : RestClient) : List Event × Except PyErr Json :=
  restGetJson env c (c.api_base ++ "/web/lists") "Error getting lists: "

/-- Translation of `SharePointRestClient.get_list_items`. -/
def get_list_items (env : HttpEnv) (c : RestClient) (list_title : String) :
    List Event × Except PyErr Json :=
  restGetJson env c (c.api_base ++ "/web/lists/getbytitle('" ++ list_title ++ "')/items")
    "Error getting list items: "

/-- Translation of `SharePointRestClient.get_files_in_library`. -/
def get_files_in_library (env : HttpEnv) (c : RestClient) (library_name : String) :
    List Event × Except PyErr Json :=
  restGetJson env c
    (c.api_base ++ "/web/lists/getbytitle('" ++ library_name ++ "')/items?$expand=File")
    "Error getting files: "

/-- Translation of `SharePointRestClient.download_file`: on HTTP 200 return
    `response.content` (the raw bytes), otherwise print a diagnostic and
    return None.  As in the other read operations, a transport fault from
    `requests.get` propagates. -/
def download_file (env : HttpEnv) (c : RestClient) (file_server_relative_url : String) :
    List Event × Except PyErr (Option (List Nat)) :=
  let url := c.site_url ++ "/_api/web/getfilebyserverrelativeurl('" ++
             file_server_relative_url ++ "')/$value"
  let hdrs := c.headers
  match env.get url hdrs with
  | .error e => ([.get url hdrs], .error e)
  | .ok resp =>
    if resp.status == 200 then
      ([.get url hdrs], .ok (some resp.content))
    else
      ([.get url hdrs,
        .printed ("Error downloading file: " ++ toString resp.status ++ " - " ++ resp.text)],
       .ok none)

end AppOnly

/-! Embedding of `sharepoint_msal_example.py`: the `SharePointGraphClient`
    session component. -/

namespace Msal

/-- The fixed Graph base URL set in `SharePointGraphClient.__init__`. -/
def graph_endpoint : String := "https://graph.microsoft.com/v1.0"

/-- The MSAL library environment: the outcome of
    `acquire_token_silent` (which may return `None`, a dict, or raise) and of
    `acquire_token_for_client` (a dict, or raise).  Token-result dicts are
    modelled as string-valued association lists with the keys
    `access_token` / `error_description`. -/
structure MsalEnv where
  acquireSilent : Except PyErr (Option (List (String × String)))
  acquireForClient : Except PyErr (List (String × String))

/-- Python truthiness of `acquire_token_silent`'s result: `None` and the
    empty dict are falsy. -/
def dictTruthy : Option (List (String × String)) → Bool
  | none => false
  | some d => !d.isEmpty

/-- Shared tail of `SharePointGraphClient.get_access_token`: given the token
    dict finally obtained, cache and return `result["access_token"]` when the
    key is present, otherwise print the provider's error description and
    return None. -/
def finishAcquire (tr : List Event) (tok : Option String)
    (r : List (String × String)) : List Event × Option String × Option String :=
  match dictGet r "access_token" with
  | some t => (tr, some t, some t)
  | none =>
    (tr ++ [.printed ("Authentication failed: " ++
       (dictGet r "error_description").getD "Unknown error")],
     tok, none)

/-- Translation of `SharePointGraphClient.get_access_token`.  Attempts
    `acquire_token_silent` first; when its result is falsy, falls back to
    `acquire_token_for_client`; caches and returns the dict's
    `access_token` on success.  Every exception inside the `try` is caught
    and converted to a printed diagnostic and a None return.  The result is
    (events, new cached token state, return value). -/
def get_access_token (menv : MsalEnv) (tok : Option String) :
    List Event × Option String × Option String :=
  match menv.acquireSilent with
  | .error e =>
    ([.acquireSilent, .printed ("Error acquiring access token: " ++ e.msg)], tok, none)
  | .ok r0 =>
    if dictTruthy r0 then
      finishAcquire [.acquireSilent] tok (r0.getD [])
    else
      match menv.acquireForClient with
      | .error e =>
        ([.acquireSilent, .acquireForClient,
          .printed ("Error acquiring access token: " ++ e.msg)], tok, none)
      | .ok r => finishAcquire [.acquireSilent, .acquireForClient] tok r

/-- Translation of `SharePointGraphClient.get_headers`: when the cached token
    is falsy, calls `get_access_token` once (never twice), then builds the
    header dict from the possibly-updated cached token; an unset token
    renders as the literal "Bearer None".  The result is
    (events, new cached token state, headers). -/
def get_headers (menv : MsalEnv) (tok : Option String) :
    List Event × Option String × List (String × String) :=
  let acq := if pyTruthy tok then ([], tok, none) else get_access_token menv tok
  let tok' := acq.2.1
  (acq.1, tok',
   [("Authorization", "Bearer " ++ pyStr tok'), ("Content-Type", "application/json")])

/-- Shared body of the seven JSON-returning `SharePointGraphClient` read
    operations: build the headers (possibly acquiring a token), GET the url;
    on HTTP 200 return `response.json()` (whose parse error propagates),
    otherwise print the diagnostic and return the empty dict.  A transport
    fault from `requests.get` propagates to the caller: the source has no
    try/except here.  The result is (events, new cached token state, return
    value). -/
def graphGetJson (henv : HttpEnv) (menv : MsalEnv) (tok : Option String)
    (url errHead : String) : List Event × Option String × Except PyErr Json :=
  let hp := get_headers menv tok
  let tok' := hp.2.1
  let hdrs := hp.2.2
  match henv.get url hdrs with
  | .error e => (hp.1 ++ [.get url hdrs], tok', .error e)
  | .ok resp =>
    if resp.status == 200 then
      (hp.1 ++ [.get url hdrs], tok', resp.jsonResult)
    else
      (hp.1 ++ [.get url hdrs,
        .printed (errHead ++ toString resp.status ++ " - " ++ resp.text)],
       tok', .ok (Json.obj []))

/-- Translation of `SharePointGraphClient.get_sharepoint_sites`: the optional
    search filter is appended only when truthy. -/
def get_sharepoint_sites (henv : HttpEnv) (menv : MsalEnv) (tok : Option String)
    (site_name : Option String) : List Event × Option String × Except PyErr Json :=
  let url := graph_endpoint ++ "/sites" ++
    (if pyTruthy site_name then "?search=" ++ pyStr site_name else "")
  graphGetJson henv menv tok url "Error getting sites: "

/-- Model of the scheme-stripping step of Python `urllib.parse.urlparse`,
    restricted to URLs whose first colon is immediately followed by `//`
    (absolute URLs such as those passed to `get_site_by_url`): returns the
    characters after the `://`, or none when the string has no colon. -/
def schemeRest : List Char → Option (List Char)
  | [] => none
  | c :: rest =>
    if c == ':' then
      match rest with
      | '/' :: '/' :: r => some r
      | _ => none
    else schemeRest rest

/-- Characters terminating the netloc component of a parsed URL. -/
def netlocEnd (c : Char) : Bool := c == '/' || c == '?' || c == '#'

/-- Model of `urlparse(url).netloc` for absolute URLs: the characters after
    `://` up to the first `/`, `?` or `#`. -/
def urlNetloc (url : String) : String :=
  match schemeRest url.data with
  | some rest => ⟨rest.takeWhile (fun c => !netlocEnd c)⟩
  | none => ""

/-- Model of `urlparse(url).path` for absolute URLs without query or
    fragment: the characters from the first `/` after the netloc up to a
    `?` or `#`. -/
def urlPath (url : String) : String :=
  match schemeRest url.data with
  | some rest =>
    ⟨(rest.dropWhile (fun c => !netlocEnd c)).takeWhile (fun c => !(c == '?' || c == '#'))⟩
  | none => url

/-- The URL requested by `SharePointGraphClient.get_site_by_url`: the Graph
    base, then `/sites/`, then the compound identifier `hostname:site_path`
    obtained from `urlparse`. -/
def siteByUrlRequestUrl (site_url : String) : String :=
  graph_endpoint ++ "/sites/" ++ urlNetloc site_url ++ ":" ++ urlPath site_url

/-- Translation of `SharePointGraphClient.get_site_by_url`: decomposes the
    site URL with `urlparse` into netloc and path and requests
    `{endpoint}/sites/{hostname}:{site_path}`. -/
def get_site_by_url (henv : HttpEnv) (menv : MsalEnv) (tok : Option String)
    (site_url : String) : List Event × Option String × Except PyErr Json :=
  graphGetJson henv menv tok (siteByUrlRequestUrl site_url) "Error getting site: "

/-- Translation of `SharePointGraphClient.get_site_drives`. -/
def get_site_drives (henv : HttpEnv) (menv : MsalEnv) (tok : Option String)
    (site_id : String) : List Event × Option String × Except PyErr Json :=
  graphGetJson henv menv tok (graph_endpoint ++ "/sites/" ++ site_id ++ "/drives")
    "Error getting drives: "

/-- Translation of `SharePointGraphClient.get_drive_items`: the folder-path
    variant of the URL is chosen when `folder_path` is truthy (the source
    default is the empty string, which is falsy). -/
def get_drive_items (henv : HttpEnv) (menv : MsalEnv) (tok : Option String)
    (site_id drive_id folder_path : String) :
    List Event × Option String × Except PyErr Json :=
  let url :=
    if !(folder_path == "") then
      graph_endpoint ++ "/sites/" ++ site_id ++ "/drives/" ++ drive_id ++
        "/root:/" ++ folder_path ++ ":/children"
    else
      graph_endpoint ++ "/sites/" ++ site_id ++ "/drives/" ++ drive_id ++ "/root/children"
  graphGetJson henv menv tok url "Error getting drive items: "

/-- Translation of `SharePointGraphClient.get_excel_worksheets`. -/
def get_excel_worksheets (henv : HttpEnv) (menv : MsalEnv) (tok : Option String)
    (site_id drive_id item_id : String) :
    List Event × Option String × Except PyErr Json :=
  graphGetJson henv menv tok
    (graph_endpoint ++ "/sites/" ++ site_id ++ "/drives/" ++ drive_id ++
     "/items/" ++ item_id ++ "/workbook/worksheets")
    "Error getting worksheets: "

/-- Translation of `SharePointGraphClient.get_excel_data`. -/
def get_excel_data (henv : HttpEnv) (menv : MsalEnv) (tok : Option String)
    (site_id drive_id item_id worksheet_name range_address : String) :
    List Event × Option String × Except PyErr Json :=
  graphGetJson henv menv tok
    (graph_endpoint ++ "/sites/" ++ site_id ++ "/drives/" ++ drive_id ++
     "/items/" ++ item_id ++ "/workbook/worksheets('" ++ worksheet_name ++
     "')/range(address='" ++ range_address ++ "')")
    "Error getting Excel data: "

/-- The local filesystem environment used by `download_excel_file`: the
    outcome of opening the local path for writing and writing the response
    bytes (an error models the OSError the `with open(...)` block raises). -/
structure FsEnv where
  openWrite : String → Except PyErr Unit

/-- Translation of `SharePointGraphClient.download_excel_file`: on HTTP 200
    writes `response.content` to the local path and returns True; on any
    other status prints a diagnostic and returns False.  Neither a transport
    fault from `requests.get` nor a filesystem fault from the local write is
    caught: both propagate to the caller. -/
def download_excel_file (henv : HttpEnv) (menv : MsalEnv) (fenv : FsEnv)
    (tok : Option String) (site_id drive_id item_id local_path : String) :
    List Event × Option String × Except PyErr Bool :=
  let url := graph_endpoint ++ "/sites/" ++ site_id ++ "/drives/" ++ drive_id ++
             "/items/" ++ item_id ++ "/content"
  let hp := get_headers menv tok
  let tok' := hp.2.1
  let hdrs := hp.2.2
  match henv.get url hdrs with
  | .error e => (hp.1 ++ [.get url hdrs], tok', .error e)
  | .ok resp =>
    if resp.status == 200 then
      match fenv.openWrite local_path with
      | .error e => (hp.1 ++ [.get url hdrs, .fsOpenWrite local_path], tok', .error e)
      | .ok _ =>
        (hp.1 ++ [.get url hdrs, .fsOpenWrite local_path,
          .printed ("File downloaded successfully to " ++ local_path)],
         tok', .ok true)
    else
      (hp.1 ++ [.get url hdrs,
        .printed ("Error downloading file: " ++ toString resp.status ++ " - " ++ resp.text)],
       tok', .ok false)

end Msal

/-! Embedding of `sharepoint_office365_client_example.py`: the
    `SharePointOffice365Client` session component. -/

namespace O365

/-- Model of Python `os.path.basename`: the part after the last `/`. -/
def basename (p : String) : String :=
  (pySplit p "/").getLastD ""

/-- Model of Python `os.path.dirname`: the part before the last `/` (empty
    when the path has no `/`). -/
def dirname (p : String) : String :=
  let parts := pySplit p "/"
  if parts.length == 1 then "" else joinSep "/" parts.dropLast

/-- Model of Python `s.split('/')[-1]`, used for the site name in
    `get_files_in_library`'s folder-URL construction (`split` never returns
    an empty list, so the `[-1]` subscript never raises). -/
def lastComponent (s : String) : String :=
  (pySplit s "/").getLastD ""

/-- A SharePoint list as surfaced by the office365 library: the properties
    read by `get_document_libraries`. -/
structure SPList where
  title : String
  ident : String
  item_count : Nat
  default_view_url : String
  base_template : Nat
  deriving Repr, DecidableEq

/-- The record built for each document library by `get_document_libraries`. -/
structure LibRecord where
  title : String
  ident : String
  item_count : Nat
  server_relative_url : String
  deriving Repr, DecidableEq

/-- The projection `get_document_libraries` applies to a kept list. -/
def toLibRecord (l : SPList) : LibRecord :=
  { title := l.title, ident := l.ident, item_count := l.item_count,
    server_relative_url := l.default_view_url }

/-- A SharePoint file as surfaced by the office365 library: the properties
    read by `get_files_in_library` (the time fields already carry their
    isoformat rendering, or None). -/
structure SPFile where
  name : String
  server_relative_url : String
  length : Nat
  time_created : Option String
  time_last_modified : Option String
  deriving Repr, DecidableEq

/-- The record built for each file by `get_files_in_library`: the isoformat
    rendering is applied only to non-None times. -/
structure FileRecord where
  name : String
  server_relative_url : String
  size : Nat
  time_created : Option String
  time_last_modified : Option String
  deriving Repr, DecidableEq

/-- The projection `get_files_in_library` applies to each file. -/
def toFileRecord (f : SPFile) : FileRecord :=
  { name := f.name, server_relative_url := f.server_relative_url, size := f.length,
    time_created := f.time_created, time_last_modified := f.time_last_modified }

/-- A SharePoint list item as surfaced by the office365 library: the
    attributes reachable by `getattr` and the raw `properties` dict. -/
structure SPItem where
  attrs : List (String × String)
  props : List (String × String)
  deriving Repr, DecidableEq

/-- A pandas DataFrame as returned by `pd.read_excel`; its contents are
    opaque to this repository, only its identity matters. -/
structure DataFrame where
  rows : Nat
  cols : Nat
  deriving Repr, DecidableEq

/-- The office365 library and local-filesystem environment: outcomes of the
    remote load/execute round trips issued through the client context, and
    of the local filesystem and pandas calls used by the download helpers.
    An `Except.error` outcome models the corresponding Python call
    raising. -/
structure Env where
  mkContext : Except PyErr Unit
  webQuery : Except PyErr String
  listsQuery : Except PyErr (List SPList)
  folderFilesQuery : String → Except PyErr (List SPFile)
  rootFilesQuery : String → Except PyErr (List SPFile)
  downloadQuery : String → Except PyErr Unit
  itemsQuery : String → Option (List String) → Except PyErr (List SPItem)
  makedirs : String → Except PyErr Unit
  openWrite : String → Except PyErr Unit
  removeFile : String → Except PyErr Unit
  readExcel : String → Option String → Except PyErr DataFrame

/-- State of a `SharePointOffice365Client` object: the constructor arguments
    and whether `self.ctx` has been assigned (it starts as None and is
    assigned by `authenticate`). -/
structure Client where
  site_url : String
  ctx : Bool

/-- The diagnostic printed by every operation invoked before `authenticate`. -/
def notAuthMsg : String := "Not authenticated. Please call authenticate() first."

/-- Translation of `SharePointOffice365Client.authenticate`: builds the
    credential and context (whose constructor may raise before `self.ctx` is
    assigned), then validates connectivity with one load/execute round trip;
    any exception is caught, printed, and reported as False.  Note that
    `self.ctx` is assigned before the round trip, so it stays assigned even
    when validation fails.  The result is (events, new state, return
    value). -/
def authenticate (env : Env) (c : Client) : List Event × Client × Bool :=
  match env.mkContext with
  | .error e =>
    ([.printed ("Authentication failed: " ++ e.msg)], c, false)
  | .ok _ =>
    let c' := { c with ctx := true }
    match env.webQuery with
    | .error e =>
      ([.ctxWebQuery, .printed ("Authentication failed: " ++ e.msg)], c', false)
    | .ok title =>
      ([.ctxWebQuery,
        .printed ("Successfully authenticated to SharePoint site: " ++ title)],
       c', true)

/-- Translation of `SharePointOffice365Client.get_document_libraries`: guard
    on `self.ctx`, one load/execute of the site's lists, then the client-side
    filter keeping exactly the lists whose `base_template` equals 101, in
    collection order; any exception is caught, printed, and converted to an
    empty list. -/
def get_document_libraries (env : Env) (c : Client) : List Event × List LibRecord :=
  if !c.ctx then ([.printed notAuthMsg], [])
  else
    match env.listsQuery with
    | .error e =>
      ([.ctxListsQuery, .printed ("Error getting document libraries: " ++ e.msg)], [])
    | .ok ls =>
      ([.ctxListsQuery],
       (ls.filter (fun lst => lst.base_template == 101)).map toLibRecord)

/-- Translation of `SharePointOffice365Client.get_files_in_library`: guard on
    `self.ctx`; with a truthy folder path the target folder is addressed by
    the string-concatenated server-relative URL
    `/sites/{site_url.split('/')[-1]}/{library_name}/{folder_path}`,
    otherwise by the library's root folder; one load/execute of the folder's
    files, then the per-file record projection; any exception is caught,
    printed, and converted to an empty list. -/
def get_files_in_library (env : Env) (c : Client) (library_name folder_path : String) :
    List Event × List FileRecord :=
  if !c.ctx then ([.printed notAuthMsg], [])
  else
    let filesOutcome :=
      if !(folder_path == "") then
        let folderUrl := "/sites/" ++ lastComponent c.site_url ++ "/" ++
                         library_name ++ "/" ++ folder_path
        (Event.ctxFolderFilesQuery folderUrl, env.folderFilesQuery folderUrl)
      else
        (Event.ctxRootFilesQuery library_name, env.rootFilesQuery library_name)
    match filesOutcome.2 with
    | .error e =>
      ([filesOutcome.1, .printed ("Error getting files: " ++ e.msg)], [])
    | .ok fs =>
      ([filesOutcome.1], fs.map toFileRecord)

/-- Translation of `SharePointOffice365Client.download_file`: guard on
    `self.ctx`; create the parent directory, open the local path for
    writing, and run the download round trip; success returns True; any
    exception (filesystem or library) is caught, printed, and converted to
    False. -/
def download_file (env : Env) (c : Client) (file_server_relative_url local_path : String) :
    List Event × Bool :=
  if !c.ctx then ([.printed notAuthMsg], false)
  else
    let dir := dirname local_path
    match env.makedirs dir with
    | .error e =>
      ([.fsMakedirs dir, .printed ("Error downloading file: " ++ e.msg)], false)
    | .ok _ =>
      match env.openWrite local_path with
      | .error e =>
        ([.fsMakedirs dir, .fsOpenWrite local_path,
          .printed ("Error downloading file: " ++ e.msg)], false)
      | .ok _ =>
        match env.downloadQuery file_server_relative_url with
        | .error e =>
          ([.fsMakedirs dir, .fsOpenWrite local_path,
            .ctxDownload file_server_relative_url,
            .printed ("Error downloading file: " ++ e.msg)], false)
        | .ok _ =>
          ([.fsMakedirs dir, .fsOpenWrite local_path,
            .ctxDownload file_server_relative_url,
            .printed ("File downloaded successfully to: " ++ local_path)], true)

/-- The suffix test of `get_excel_files`:
    `f['name'].lower().endswith(('.xlsx', '.xls', '.xlsm'))`. -/
def isExcelName (name : String) : Bool :=
  pyEndsWith (pyLower name) ".xlsx" || pyEndsWith (pyLower name) ".xls" ||
    pyEndsWith (pyLower name) ".xlsm"

/-- Translation of `SharePointOffice365Client.get_excel_files`: fetches the
    library's files via `get_files_in_library` and keeps exactly those whose
    lowercased name ends in .xlsx, .xls or .xlsm, in order. -/
def get_excel_files (env : Env) (c : Client) (library_name folder_path : String) :
    List Event × List FileRecord :=
  let all := get_files_in_library env c library_name folder_path
  (all.1, all.2.filter (fun f => isExcelName f.name))

/-- The fixed temporary path used by `download_and_read_excel`:
    `/tmp/{os.path.basename(file_server_relative_url)}`. -/
def tempPath (file_server_relative_url : String) : String :=
  "/tmp/" ++ basename file_server_relative_url

/-- Translation of `SharePointOffice365Client.download_and_read_excel`: guard
    on `self.ctx`; download the file to the fixed temporary path (a failed
    download returns None without raising, since `download_file` catches its
    own exceptions); parse the temporary file with pandas (scoped to the
    named sheet when one is given); remove the temporary file; return the
    DataFrame.  A pandas or removal exception is caught by the surrounding
    `try`, printed, and converted to None — leaving the temporary file on
    disk, since the removal is reached only after a successful parse. -/
def download_and_read_excel (env : Env) (c : Client)
    (file_server_relative_url : String) (sheet_name : Option String) :
    List Event × Option DataFrame :=
  if !c.ctx then ([.printed notAuthMsg], none)
  else
    let temp_path := tempPath file_server_relative_url
    let dl := download_file env c file_server_relative_url temp_path
    if !dl.2 then (dl.1, none)
    else
      match env.readExcel temp_path sheet_name with
      | .error e =>
        (dl.1 ++ [.readExcel temp_path sheet_name,
          .printed ("Error reading Excel file: " ++ e.msg)], none)
      | .ok df =>
        match env.removeFile temp_path with
        | .error e =>
          (dl.1 ++ [.readExcel temp_path sheet_name,
            .printed ("Error reading Excel file: " ++ e.msg)], none)
        | .ok _ =>
          (dl.1 ++ [.readExcel temp_path sheet_name, .fsRemoved temp_path,
            .printed ("Excel file read successfully. Shape: (" ++
              toString df.rows ++ ", " ++ toString df.cols ++ ")")], some df)

/-- The per-item projection of `get_list_items`: with a field list, each
    requested field is read with `getattr(item, field, None)`; otherwise the
    raw properties dict is returned. -/
def itemRecord (fields : Option (List String)) (item : SPItem) :
    List (String × Option String) :=
  match fields with
  | some fl => fl.map (fun f => (f, dictGet item.attrs f))
  | none => item.props.map (fun kv => (kv.1, some kv.2))

/-- Translation of `SharePointOffice365Client.get_list_items`: guard on
    `self.ctx`; one load/execute of the named list's items (restricted to
    the requested fields when given), then the per-item projection; any
    exception is caught, printed, and converted to an empty list. -/
def get_list_items (env : Env) (c : Client) (list_name : String)
    (fields : Option (List String)) :
    List Event × List (List (String × Option String)) :=
  if !c.ctx then ([.printed notAuthMsg], [])
  else
    match env.itemsQuery list_name fields with
    | .error e =>
      ([.ctxItemsQuery list_name, .printed ("Error getting list items: " ++ e.msg)], [])
    | .ok items =>
      ([.ctxItemsQuery list_name], items.map (itemRecord fields))

end O365

/-! Sample environments used by the concrete witnesses and counterexamples. -/

/-- A sample JSON payload for successful responses. -/
def sampleJson : Json := Json.obj [("d", Json.str "payload")]

/-- A successful HTTP response carrying a well-formed JSON body. -/
def resp200 : HttpResponse :=
  { status := 200, headers := [], text := "ok", jsonResult := .ok sampleJson,
    content := [80, 75, 3, 4] }

/-- A successful HTTP response whose body is not valid JSON: calling
    `response.json()` on it raises. -/
def resp200bad : HttpResponse :=
  { status := 200, headers := [], text := "<html>", 
    jsonResult := .error (.jsonDecode "Expecting value"), content := [60] }

/-- A plain 404 response. -/
def resp404 : HttpResponse :=
  { status := 404, headers := [], text := "Not Found", jsonResult := .ok (Json.obj []),
    content := [] }

/-- A network environment in which every request yields the 404 response. -/
def env404 : HttpEnv := { get := fun _ _ => .ok resp404, post := fun _ _ _ => .ok resp404 }

/-- A network environment in which every request yields a 200 response. -/
def env200 : HttpEnv := { get := fun _ _ => .ok resp200, post := fun _ _ _ => .ok resp200 }

/-- A network environment in which every request raises a transport fault. -/
def envDown : HttpEnv :=
  { get := fun _ _ => .error (.transport "connection refused"),
    post := fun _ _ _ => .error (.transport "connection refused") }

/-! Claim C4. -/

/-- An unauthorized response carrying the WWW-Authenticate realm header in
    the literal Bearer form. -/
def realmResp : HttpResponse :=
  { status := 401,
    headers := [("WWW-Authenticate",
      "Bearer realm=\"contoso.sharepoint.com\",client_id=\"00000003-0000-0ff1-ce00-000000000000\"")],
    text := "", jsonResult := .ok (Json.obj []), content := [] }

/-- A network environment in which every request yields the realm-header
    response. -/
def realmEnv : HttpEnv :=
  { get := fun _ _ => .ok realmResp, post := fun _ _ _ => .ok realmResp }

/-- C4: `_get_realm` returns the realm attribute parsed from a
    WWW-Authenticate header of the literal form
    Bearer realm="contoso.sharepoint.com",... as contoso.sharepoint.com;
    when the response has no such header, or the request raises, it returns
    the fallback string tenant_name ++ ".sharepoint.com", where the
    tenant name is the one derived from the configured site URL's
    subdomain. -/
theorem C4_resolve_realm (env : HttpEnv) (site_url tn : String)
    (_htn : AppOnly.tenantNameOf site_url = .ok tn) :
    (∀ resp, env.get (site_url ++ "/_vti_bin/client.svc") [] = .ok resp →
       dictGet resp.headers "WWW-Authenticate" =
         some "Bearer realm=\"contoso.sharepoint.com\",client_id=\"00000003-0000-0ff1-ce00-000000000000\"" →
       AppOnly.get_realm env site_url tn = "contoso.sharepoint.com")
    ∧ (∀ resp, env.get (site_url ++ "/_vti_bin/client.svc") [] = .ok resp →
       dictGet resp.headers "WWW-Authenticate" = none →
       AppOnly.get_realm env site_url tn = tn ++ ".sharepoint.com")
    ∧ (∀ e, env.get (site_url ++ "/_vti_bin/client.svc") [] = .error e →
       AppOnly.get_realm env site_url tn = tn ++ ".sharepoint.com") := by
  refine ⟨?_, ?_, ?_⟩
  · intro resp h1 h2
    simp only [AppOnly.get_realm, h1, h2]
    rfl
  · intro resp h1 h2
    simp only [AppOnly.get_realm, h1, h2]
  · intro e h1
    simp only [AppOnly.get_realm, h1]

/-- Witness for C4 at a concrete environment: the realm header parses to
    contoso.sharepoint.com, and a transport fault falls back to the
    tenant-derived default. -/
theorem C4_resolve_realm_witness :
    AppOnly.get_realm realmEnv "https://contoso.sharepoint.com/sites/x" "contoso" =
      "contoso.sharepoint.com" ∧
    AppOnly.get_realm envDown "https://contoso.sharepoint.com/sites/x" "contoso" =
      "contoso.sharepoint.com" :=
  ⟨(C4_resolve_realm realmEnv "https://contoso.sharepoint.com/sites/x" "contoso" rfl).1
      realmResp rfl rfl,
   (C4_resolve_realm envDown "https://contoso.sharepoint.com/sites/x" "contoso" rfl).2.2
      (PyErr.transport "connection refused") rfl⟩

/-! Claim C5. -/

/-- Scheme stripping on a composed URL: when the scheme part has no colon,
    `schemeRest` returns exactly the characters after the first `://`. -/
theorem schemeRest_append (scheme rest : List Char)
    (h : ∀ c ∈ scheme, (c == ':') = false) :
    Msal.schemeRest (scheme ++ ':' :: '/' :: '/' :: rest) = some rest := by
  induction scheme with
  | nil => simp [Msal.schemeRest]
  | cons c cs ih =>
    have hc := h c (List.mem_cons_self c cs)
    simp only [List.cons_append, Msal.schemeRest, hc, Bool.false_eq_true, if_false]
    exact ih (fun x hx => h x (List.mem_cons_of_mem c hx))

/-- A takeWhile over a list all of whose elements satisfy the predicate is
    the identity. -/
theorem takeWhile_all {p : Char → Bool} {l : List Char} (h : ∀ c ∈ l, p c = true) :
    l.takeWhile p = l := by
  induction l with
  | nil => rfl
  | cons c cs ih =>
    rw [List.takeWhile_cons_of_pos (h c (List.mem_cons_self c cs))]
    rw [ih (fun x hx => h x (List.mem_cons_of_mem c hx))]

/-- Every branch of a Graph read operation issues its GET request with the
    headers built by `get_headers`. -/
theorem graphGetJson_issues (henv : HttpEnv) (menv : Msal.MsalEnv) (tok : Option String)
    (url eh : String) :
    Event.get url (Msal.get_headers menv tok).2.2 ∈
      (Msal.graphGetJson henv menv tok url eh).1 := by
  simp only [Msal.graphGetJson]
  rcases h : henv.get url (Msal.get_headers menv tok).2.2 with _ | resp
  · simp [h]
  · by_cases hst : resp.status == 200 <;> simp [h, hst]

/-- C5: for every well-formed absolute site URL scheme://host/path (scheme
    without a colon, host without netloc-terminating characters, path
    starting with a slash and free of query/fragment characters),
    `get_site_by_url` decomposes the URL into host and path and requests
    the compound site identifier host:path under the Graph sites base; its
    issued GET request targets exactly that URL. -/
theorem C5_get_site_by_url (scheme host path : String)
    (hs : ∀ c ∈ scheme.data, (c == ':') = false)
    (hh : ∀ c ∈ host.data, Msal.netlocEnd c = false)
    (hp : ∃ t, path.data = '/' :: t)
    (hq : ∀ c ∈ path.data, (c == '?' || c == '#') = false) :
    Msal.siteByUrlRequestUrl (scheme ++ "://" ++ host ++ path) =
      Msal.graph_endpoint ++ "/sites/" ++ host ++ ":" ++ path
    ∧ ∀ henv menv tok,
        Event.get (Msal.graph_endpoint ++ "/sites/" ++ host ++ ":" ++ path)
            (Msal.get_headers menv tok).2.2 ∈
          (Msal.get_site_by_url henv menv tok (scheme ++ "://" ++ host ++ path)).1 := by
  obtain ⟨t, ht⟩ := hp
  have hdata : (scheme ++ "://" ++ host ++ path).data =
      scheme.data ++ ':' :: '/' :: '/' :: (host.data ++ path.data) := by
    simp [String.data_append]
  have hsr : Msal.schemeRest (scheme ++ "://" ++ host ++ path).data =
      some (host.data ++ path.data) := by
    rw [hdata]; exact schemeRest_append _ _ hs
  have h1 : ∀ c ∈ host.data, (fun c => !Msal.netlocEnd c) c = true := by
    intro c hc; simp [hh c hc]
  have hnet : Msal.urlNetloc (scheme ++ "://" ++ host ++ path) = host := by
    rw [Msal.urlNetloc, hsr]
    dsimp only
    rw [List.takeWhile_append_of_pos h1, ht]
    rw [List.takeWhile_cons_of_neg (by simp [Msal.netlocEnd])]
    rw [List.append_nil]
  have hpath : Msal.urlPath (scheme ++ "://" ++ host ++ path) = path := by
    rw [Msal.urlPath, hsr]
    dsimp only
    rw [List.dropWhile_append_of_pos h1, ht]
    rw [List.dropWhile_cons_of_neg (by simp [Msal.netlocEnd])]
    rw [← ht]
    rw [takeWhile_all (by intro c hc; simp only [Bool.not_eq_true']; exact hq c hc)]
  have hmain : Msal.siteByUrlRequestUrl (scheme ++ "://" ++ host ++ path) =
      Msal.graph_endpoint ++ "/sites/" ++ host ++ ":" ++ path := by
    rw [Msal.siteByUrlRequestUrl, hnet, hpath]
  refine ⟨hmain, ?_⟩
  intro henv menv tok
  rw [← hmain]
  simp only [Msal.get_site_by_url]
  exact graphGetJson_issues henv menv tok
    (Msal.siteByUrlRequestUrl (scheme ++ "://" ++ host ++ path)) "Error getting site: "

/-- Witness for C5 at the example of the specification: the site URL
    https://contoso.sharepoint.com/sites/teamsite is requested as the
    identifier contoso.sharepoint.com:/sites/teamsite. -/
theorem C5_get_site_by_url_witness :
    Msal.siteByUrlRequestUrl ("https" ++ "://" ++ "contoso.sharepoint.com" ++ "/sites/teamsite") =
      Msal.graph_endpoint ++ "/sites/" ++ "contoso.sharepoint.com" ++ ":" ++ "/sites/teamsite" :=
  (C5_get_site_by_url "https" "contoso.sharepoint.com" "/sites/teamsite"
    (by decide) (by decide) ⟨"sites/teamsite".data, by decide⟩ (by decide)).1

/-! Claim C3. -/

/-- A REST read operation whose GET completes with a non-200 status returns
    the empty mapping without raising. -/
theorem restGetJson_non200 (env : HttpEnv) (c : AppOnly.RestClient) (url eh : String)
    (resp : HttpResponse) (henv : env.get url c.headers = .ok resp)
    (hst : (resp.status == 200) = false) :
    (AppOnly.restGetJson env c url eh).2 = .ok (Json.obj []) := by
  simp [AppOnly.restGetJson, henv, hst]

/-- A Graph read operation whose GET completes with a non-200 status returns
    the empty mapping without raising. -/
theorem graphGetJson_non200 (henv : HttpEnv) (menv : Msal.MsalEnv) (tok : Option String)
    (url eh : String) (resp : HttpResponse)
    (hget : henv.get url (Msal.get_headers menv tok).2.2 = .ok resp)
    (hst : (resp.status == 200) = false) :
    (Msal.graphGetJson henv menv tok url eh).2.2 = .ok (Json.obj []) := by
  simp [Msal.graphGetJson, hget, hst]

/-- C3: every read operation of the three strategies converts a failed
    request into an empty mapping (JSON-returning operations), None
    (byte-returning) or False (boolean-returning) without raising.  For the
    two requests-based clients the failure is a non-200 HTTP status; for the
    resource-context client, whose library surfaces non-200 responses as
    exceptions from the batched execute call, the failure is the
    corresponding query raising. -/
theorem C3_non200_sentinel (env : HttpEnv) (resp : HttpResponse)
    (henv : ∀ url hdrs, env.get url hdrs = .ok resp)
    (hst : resp.status ≠ 200) :
    (∀ c : AppOnly.RestClient,
       (AppOnly.get_web_info env c).2 = .ok (Json.obj [])
       ∧ (AppOnly.get_lists env c).2 = .ok (Json.obj [])
       ∧ (∀ lt, (AppOnly.get_list_items env c lt).2 = .ok (Json.obj []))
       ∧ (∀ lib, (AppOnly.get_files_in_library env c lib).2 = .ok (Json.obj []))
       ∧ (∀ u, (AppOnly.download_file env c u).2 = .ok none))
    ∧ (∀ (menv : Msal.MsalEnv) (fenv : Msal.FsEnv) (tok : Option String),
       (∀ sn, (Msal.get_sharepoint_sites env menv tok sn).2.2 = .ok (Json.obj []))
       ∧ (∀ su, (Msal.get_site_by_url env menv tok su).2.2 = .ok (Json.obj []))
       ∧ (∀ sid, (Msal.get_site_drives env menv tok sid).2.2 = .ok (Json.obj []))
       ∧ (∀ sid did fp, (Msal.get_drive_items env menv tok sid did fp).2.2 = .ok (Json.obj []))
       ∧ (∀ sid did iid, (Msal.get_excel_worksheets env menv tok sid did iid).2.2 = .ok (Json.obj []))
       ∧ (∀ sid did iid wn ra, (Msal.get_excel_data env menv tok sid did iid wn ra).2.2 = .ok (Json.obj []))
       ∧ (∀ sid did iid lp,
            (Msal.download_excel_file env menv fenv tok sid did iid lp).2.2 = .ok false))
    ∧ (∀ (oenv : O365.Env) (c : O365.Client) (e : PyErr), c.ctx = true →
       (oenv.listsQuery = .error e → (O365.get_document_libraries oenv c).2 = [])
       ∧ (∀ lib, oenv.rootFilesQuery lib = .error e →
            (O365.get_files_in_library oenv c lib "").2 = [])
       ∧ (∀ u lp, oenv.makedirs (O365.dirname lp) = .ok () → oenv.openWrite lp = .ok () →
            oenv.downloadQuery u = .error e → (O365.download_file oenv c u lp).2 = false)
       ∧ (∀ n f, oenv.itemsQuery n f = .error e → (O365.get_list_items oenv c n f).2 = [])) := by
  have hst' : (resp.status == 200) = false := by simpa using hst
  refine ⟨?_, ?_, ?_⟩
  · intro c
    refine ⟨?_, ?_, fun lt => ?_, fun lib => ?_, fun u => ?_⟩
    · exact restGetJson_non200 env c _ _ resp (henv _ _) hst'
    · exact restGetJson_non200 env c _ _ resp (henv _ _) hst'
    · exact restGetJson_non200 env c _ _ resp (henv _ _) hst'
    · exact restGetJson_non200 env c _ _ resp (henv _ _) hst'
    · simp [AppOnly.download_file, henv, hst']
  · intro menv fenv tok
    refine ⟨fun sn => ?_, fun su => ?_, fun sid => ?_, fun sid did fp => ?_,
            fun sid did iid => ?_, fun sid did iid wn ra => ?_, fun sid did iid lp => ?_⟩
    · exact graphGetJson_non200 env menv tok _ _ resp (henv _ _) hst'
    · exact graphGetJson_non200 env menv tok _ _ resp (henv _ _) hst'
    · exact graphGetJson_non200 env menv tok _ _ resp (henv _ _) hst'
    · exact graphGetJson_non200 env menv tok _ _ resp (henv _ _) hst'
    · exact graphGetJson_non200 env menv tok _ _ resp (henv _ _) hst'
    · exact graphGetJson_non200 env menv tok _ _ resp (henv _ _) hst'
    · simp [Msal.download_excel_file, henv, hst']
  · intro oenv c e hctx
    refine ⟨fun h => ?_, fun lib h => ?_, fun u lp h1 h2 h3 => ?_, fun n f h => ?_⟩
    · simp [O365.get_document_libraries, hctx, h]
    · simp [O365.get_files_in_library, hctx, h]
    · simp [O365.download_file, hctx, h1, h2, h3]
    · simp [O365.get_list_items, hctx, h]

/-- Witness for C3 at the 404 environment with a concrete client of each
    strategy and concrete resource names. -/
theorem C3_non200_sentinel_witness :
    (AppOnly.get_web_info env404
      { site_url := "https://contoso.sharepoint.com/sites/t", access_token := some "tok" }).2 =
      .ok (Json.obj []) := by
  have h := C3_non200_sentinel env404 resp404 (fun _ _ => rfl) (by decide)
  exact (h.1 { site_url := "https://contoso.sharepoint.com/sites/t", access_token := some "tok" }).1

/-! Claim C7, with concrete office365 sample data shared by the later
    witnesses. -/

/-- A document library (template 101) in the sample site. -/
def docLib : O365.SPList :=
  { title := "Documents", ident := "lib-1", item_count := 3,
    default_view_url := "/sites/t/Shared Documents/Forms/AllItems.aspx",
    base_template := 101 }

/-- A non-library list (template 107) in the sample site. -/
def taskList : O365.SPList :=
  { title := "Tasks", ident := "list-2", item_count := 5,
    default_view_url := "/sites/t/Lists/Tasks", base_template := 107 }

/-- Sample files of the sample library. -/
def xlsxFile : O365.SPFile :=
  { name := "Report.XLSX", server_relative_url := "/sites/t/Shared Documents/Report.XLSX",
    length := 2048, time_created := some "2024-01-01T00:00:00", time_last_modified := none }

/-- A non-spreadsheet file of the sample library. -/
def docxFile : O365.SPFile :=
  { name := "notes.docx", server_relative_url := "/sites/t/Shared Documents/notes.docx",
    length := 100, time_created := none, time_last_modified := none }

/-- A legacy-suffix spreadsheet file of the sample library. -/
def xlsFile : O365.SPFile :=
  { name := "old.xls", server_relative_url := "/sites/t/Shared Documents/old.xls",
    length := 512, time_created := none, time_last_modified := some "2023-06-01T12:00:00" }

/-- An office365 environment in which every remote query and local call
    succeeds. -/
def o365Ok : O365.Env :=
  { mkContext := .ok (), webQuery := .ok "Team Site",
    listsQuery := .ok [docLib, taskList],
    folderFilesQuery := fun _ => .ok [xlsxFile, docxFile, xlsFile],
    rootFilesQuery := fun _ => .ok [xlsxFile, docxFile, xlsFile],
    downloadQuery := fun _ => .ok (), itemsQuery := fun _ _ => .ok [],
    makedirs := fun _ => .ok (), openWrite := fun _ => .ok (),
    removeFile := fun _ => .ok (),
    readExcel := fun _ _ => .ok { rows := 10, cols := 4 } }

/-- The sample client after a successful `authenticate`. -/
def authedClient : O365.Client :=
  { site_url := "https://contoso.sharepoint.com/sites/t", ctx := true }

/-- The sample client before any `authenticate` call. -/
def freshClient : O365.Client :=
  { site_url := "https://contoso.sharepoint.com/sites/t", ctx := false }

/-- C7: `get_document_libraries` returns exactly the projections of those
    remote lists whose template identifier equals 101, excluding all
    others, in the remote collection's order. -/
theorem C7_document_libraries (oenv : O365.Env) (c : O365.Client)
    (ls : List O365.SPList) (hctx : c.ctx = true) (hq : oenv.listsQuery = .ok ls) :
    (O365.get_document_libraries oenv c).2 =
      (ls.filter (fun l => l.base_template == 101)).map O365.toLibRecord
    ∧ (∀ l ∈ ls, l.base_template = 101 →
         O365.toLibRecord l ∈ (O365.get_document_libraries oenv c).2)
    ∧ (∀ r ∈ (O365.get_document_libraries oenv c).2,
         ∃ l ∈ ls, l.base_template = 101 ∧ r = O365.toLibRecord l) := by
  have hmain : (O365.get_document_libraries oenv c).2 =
      (ls.filter (fun l => l.base_template == 101)).map O365.toLibRecord := by
    simp [O365.get_document_libraries, hctx, hq]
  refine ⟨hmain, ?_, ?_⟩
  · intro l hl h101
    rw [hmain]
    exact List.mem_map_of_mem _ (List.mem_filter.mpr ⟨hl, by simp [h101]⟩)
  · intro r hr
    rw [hmain] at hr
    obtain ⟨l, hl, rfl⟩ := List.mem_map.mp hr
    have hf := List.mem_filter.mp hl
    exact ⟨l, hf.1, by simpa using hf.2, rfl⟩

/-- Witness for C7 at the sample environment: of the two remote lists only
    the template-101 one is returned. -/
theorem C7_document_libraries_witness :
    (O365.get_document_libraries o365Ok authedClient).2 =
      ([docLib, taskList].filter (fun l => l.base_template == 101)).map O365.toLibRecord :=
  (C7_document_libraries o365Ok authedClient [docLib, taskList] rfl rfl).1

/-! Claim C10. -/

/-- C10: `get_excel_files` returns exactly those entries of
    `get_files_in_library` whose lowercased name ends in .xlsx, .xls or
    .xlsm, in their original order; an unauthenticated session yields the
    empty list. -/
theorem C10_excel_files (oenv : O365.Env) (c : O365.Client) (lib fp : String) :
    (O365.get_excel_files oenv c lib fp).2 =
      (O365.get_files_in_library oenv c lib fp).2.filter (fun f => O365.isExcelName f.name)
    ∧ (∀ f, f ∈ (O365.get_excel_files oenv c lib fp).2 ↔
         f ∈ (O365.get_files_in_library oenv c lib fp).2 ∧ O365.isExcelName f.name = true)
    ∧ (c.ctx = false → (O365.get_excel_files oenv c lib fp).2 = []) := by
  refine ⟨rfl, ?_, ?_⟩
  · intro f
    constructor
    · intro hf
      exact List.mem_filter.mp hf
    · intro hf
      exact List.mem_filter.mpr ⟨hf.1, hf.2⟩
  · intro h
    simp [O365.get_excel_files, O365.get_files_in_library, h]

/-- Witness for C10: at the sample environment the three library files are
    filtered down to the two spreadsheet names, and the unauthenticated
    client yields the empty list. -/
theorem C10_excel_files_witness :
    (O365.get_excel_files o365Ok freshClient "Documents" "").2 = [] :=
  (C10_excel_files o365Ok freshClient "Documents" "").2.2 rfl

/-! Claims C6 and C8. -/

/-- The trace of `download_file` never contains a spreadsheet-parse
    event. -/
theorem download_file_no_read (oenv : O365.Env) (c : O365.Client) (u lp p : String)
    (s : Option String) : Event.readExcel p s ∉ (O365.download_file oenv c u lp).1 := by
  unfold O365.download_file
  cases h1 : oenv.makedirs (O365.dirname lp) <;>
  cases h2 : oenv.openWrite lp <;>
  cases h3 : oenv.downloadQuery u <;>
  by_cases hc : c.ctx <;> simp [h1, h2, h3, hc]

/-- The trace of `download_file` never contains a file-removal event. -/
theorem download_file_no_removed (oenv : O365.Env) (c : O365.Client) (u lp p : String) :
    Event.fsRemoved p ∉ (O365.download_file oenv c u lp).1 := by
  unfold O365.download_file
  cases h1 : oenv.makedirs (O365.dirname lp) <;>
  cases h2 : oenv.openWrite lp <;>
  cases h3 : oenv.downloadQuery u <;>
  by_cases hc : c.ctx <;> simp [h1, h2, h3, hc]

/-- C6: whenever the download step of `download_and_read_excel` reports
    failure, the operation returns None and the spreadsheet parser is never
    invoked. -/
theorem C6_failed_download (oenv : O365.Env) (c : O365.Client) (u : String)
    (sheet : Option String)
    (hdl : (O365.download_file oenv c u (O365.tempPath u)).2 = false) :
    (O365.download_and_read_excel oenv c u sheet).2 = none
    ∧ ∀ p s, Event.readExcel p s ∉ (O365.download_and_read_excel oenv c u sheet).1 := by
  by_cases hc : c.ctx
  · have hred : O365.download_and_read_excel oenv c u sheet =
        ((O365.download_file oenv c u (O365.tempPath u)).1, none) := by
      simp [O365.download_and_read_excel, hc, hdl]
    rw [hred]
    exact ⟨rfl, fun p s => download_file_no_read oenv c u (O365.tempPath u) p s⟩
  · constructor
    · simp [O365.download_and_read_excel, hc]
    · intro p s
      simp [O365.download_and_read_excel, hc]

/-- An office365 environment in which the remote download query raises (as
    the library does on a failed request) and everything else succeeds. -/
def o365DownFail : O365.Env :=
  { o365Ok with downloadQuery := fun _ => .error (.lib "403 FORBIDDEN") }

/-- Witness for C6 at the failing-download environment. -/
theorem C6_failed_download_witness :
    (O365.download_and_read_excel o365DownFail authedClient
      "/sites/t/Shared Documents/Report.XLSX" none).2 = none :=
  (C6_failed_download o365DownFail authedClient
    "/sites/t/Shared Documents/Report.XLSX" none rfl).1

/-- C8: the temporary file of `download_and_read_excel` is removed exactly
    when download, parse and removal all succeed; after a successful
    download, a parse failure returns None with the removal never
    performed, leaving the temporary file on disk. -/
theorem C8_cleanup_success_only (oenv : O365.Env) (c : O365.Client) (u : String)
    (sheet : Option String) :
    (Event.fsRemoved (O365.tempPath u) ∈ (O365.download_and_read_excel oenv c u sheet).1 ↔
      ((O365.download_file oenv c u (O365.tempPath u)).2 = true
       ∧ (∃ df, oenv.readExcel (O365.tempPath u) sheet = .ok df)
       ∧ oenv.removeFile (O365.tempPath u) = .ok ()))
    ∧ (∀ e, (O365.download_file oenv c u (O365.tempPath u)).2 = true →
        oenv.readExcel (O365.tempPath u) sheet = .error e →
        (O365.download_and_read_excel oenv c u sheet).2 = none
        ∧ Event.fsRemoved (O365.tempPath u) ∉
            (O365.download_and_read_excel oenv c u sheet).1) := by
  by_cases hc : c.ctx
  · cases hdlv : (O365.download_file oenv c u (O365.tempPath u)).2
    · have hred : O365.download_and_read_excel oenv c u sheet =
          ((O365.download_file oenv c u (O365.tempPath u)).1, none) := by
        simp [O365.download_and_read_excel, hc, hdlv]
      constructor
      · rw [hred]
        constructor
        · intro hmem
          exact absurd hmem (download_file_no_removed oenv c u (O365.tempPath u) _)
        · rintro ⟨hdl, -, -⟩
          simp at hdl
      · rintro e hdl -
        simp at hdl
    · cases hre : oenv.readExcel (O365.tempPath u) sheet with
      | error e0 =>
        have hred : O365.download_and_read_excel oenv c u sheet =
            ((O365.download_file oenv c u (O365.tempPath u)).1 ++
              [.readExcel (O365.tempPath u) sheet,
               .printed ("Error reading Excel file: " ++ e0.msg)], none) := by
          simp [O365.download_and_read_excel, hc, hdlv, hre]
        have hnomem : Event.fsRemoved (O365.tempPath u) ∉
            (O365.download_and_read_excel oenv c u sheet).1 := by
          rw [hred]
          intro hmem
          rcases List.mem_append.mp hmem with h | h
          · exact absurd h (download_file_no_removed oenv c u (O365.tempPath u) _)
          · simp at h
        constructor
        · constructor
          · intro hmem
            exact absurd hmem hnomem
          · rintro ⟨-, ⟨df, hdf⟩, -⟩
            cases hdf
        · rintro e - -
          exact ⟨by rw [hred], hnomem⟩
      | ok df =>
        cases hrm : oenv.removeFile (O365.tempPath u) with
        | error e1 =>
          have hred : O365.download_and_read_excel oenv c u sheet =
              ((O365.download_file oenv c u (O365.tempPath u)).1 ++
                [.readExcel (O365.tempPath u) sheet,
                 .printed ("Error reading Excel file: " ++ e1.msg)], none) := by
            simp [O365.download_and_read_excel, hc, hdlv, hre, hrm]
          constructor
          · constructor
            · intro hmem
              rw [hred] at hmem
              rcases List.mem_append.mp hmem with h | h
              · exact absurd h (download_file_no_removed oenv c u (O365.tempPath u) _)
              · simp at h
            · rintro ⟨-, -, hrmok⟩
              cases hrmok
          · rintro e - hre2
            cases hre2
        | ok uv =>
          have hred : O365.download_and_read_excel oenv c u sheet =
              ((O365.download_file oenv c u (O365.tempPath u)).1 ++
                [.readExcel (O365.tempPath u) sheet, .fsRemoved (O365.tempPath u),
                 .printed ("Excel file read successfully. Shape: (" ++
                   toString df.rows ++ ", " ++ toString df.cols ++ ")")], some df) := by
            simp [O365.download_and_read_excel, hc, hdlv, hre, hrm]
          constructor
          · constructor
            · rintro -
              exact ⟨rfl, ⟨df, rfl⟩, rfl⟩
            · rintro -
              rw [hred]
              simp
          · rintro e - hre2
            cases hre2
  · have hdlf : (O365.download_file oenv c u (O365.tempPath u)).2 = false := by
      simp [O365.download_file, hc]
    constructor
    · constructor
      · intro hmem
        revert hmem
        simp [O365.download_and_read_excel, hc]
      · rintro ⟨hdl, -, -⟩
        rw [hdlf] at hdl
        simp at hdl
    · rintro e hdl -
      rw [hdlf] at hdl
      simp at hdl

/-- An office365 environment in which the pandas parse raises and everything
    else succeeds. -/
def o365ParseFail : O365.Env :=
  { o365Ok with readExcel := fun _ _ => .error (.lib "File is not a zip file") }

/-- Witness for C8: with a successful download and a failing parse the
    operation returns None and the temporary file is never removed. -/
theorem C8_cleanup_success_only_witness :
    (O365.download_and_read_excel o365ParseFail authedClient
      "/sites/t/Shared Documents/Report.XLSX" none).2 = none
    ∧ Event.fsRemoved (O365.tempPath "/sites/t/Shared Documents/Report.XLSX") ∉
        (O365.download_and_read_excel o365ParseFail authedClient
          "/sites/t/Shared Documents/Report.XLSX" none).1 :=
  (C8_cleanup_success_only o365ParseFail authedClient
    "/sites/t/Shared Documents/Report.XLSX" none).2
    (PyErr.lib "File is not a zip file") rfl rfl

/-! Claim C2. -/

/-- Whether an event marks the start of a token-acquisition attempt: the
    MSAL silent call that begins every `get_access_token` invocation, or the
    legacy POST to the STS host. -/
def isAcqStart : Event → Bool
  | .acquireSilent => true
  | .post url _ _ => List.isPrefixOf "https://accounts.accesscontrol.windows.net/".data url.data
  | _ => false

/-- The number of token-acquisition attempts recorded in a trace. -/
def acqCount (tr : List Event) : Nat := tr.countP isAcqStart

/-- A Graph `get_access_token` call performs exactly one acquisition
    attempt, whatever the outcome. -/
theorem msal_acquire_one_attempt (menv : Msal.MsalEnv) (tok : Option String) :
    acqCount (Msal.get_access_token menv tok).1 = 1 := by
  unfold Msal.get_access_token Msal.finishAcquire
  cases h0 : menv.acquireSilent with
  | error e =>
    simp [acqCount, List.countP_cons, List.countP_nil, isAcqStart]
  | ok r0 =>
    by_cases ht : Msal.dictTruthy r0
    · simp only [ht, if_true]
      cases hg : dictGet (r0.getD []) "access_token" <;>
        simp [hg, acqCount, List.countP_cons, List.countP_nil, List.countP_append, isAcqStart]
    · simp only [ht, if_false]
      cases h1 : menv.acquireForClient with
      | error e =>
        simp [acqCount, List.countP_cons, List.countP_nil, isAcqStart]
      | ok r =>
        cases hg : dictGet r "access_token" <;>
          simp [hg, acqCount, List.countP_cons, List.countP_nil, List.countP_append, isAcqStart]

/-- `get_headers` performs exactly one acquisition attempt when the cached
    token is unset, and none when it is set. -/
theorem msal_headers_attempts (menv : Msal.MsalEnv) (tok : Option String) :
    acqCount (Msal.get_headers menv tok).1 = if pyTruthy tok then 0 else 1 := by
  unfold Msal.get_headers
  by_cases ht : pyTruthy tok
  · simp [ht, acqCount]
  · simp only [ht, Bool.false_eq_true, if_false]
    exact msal_acquire_one_attempt menv tok

/-- A Graph read operation performs exactly the acquisition attempts of its
    `get_headers` call: the request and diagnostic events add none. -/
theorem graphGetJson_attempts (henv : HttpEnv) (menv : Msal.MsalEnv)
    (tok : Option String) (url eh : String) :
    acqCount (Msal.graphGetJson henv menv tok url eh).1 =
      acqCount (Msal.get_headers menv tok).1 := by
  unfold Msal.graphGetJson
  rcases h : henv.get url (Msal.get_headers menv tok).2.2 with _ | resp
  · simp [h, acqCount, List.countP_append, List.countP_cons, List.countP_nil, isAcqStart]
  · by_cases hst : resp.status == 200 <;>
      simp [h, hst, acqCount, List.countP_append, List.countP_cons, List.countP_nil, isAcqStart]

/-- The Graph file download likewise performs exactly the acquisition
    attempts of its `get_headers` call. -/
theorem msal_download_attempts (henv : HttpEnv) (menv : Msal.MsalEnv) (fenv : Msal.FsEnv)
    (tok : Option String) (sid did iid lp : String) :
    acqCount (Msal.download_excel_file henv menv fenv tok sid did iid lp).1 =
      acqCount (Msal.get_headers menv tok).1 := by
  unfold Msal.download_excel_file
  rcases h : henv.get
      (Msal.graph_endpoint ++ "/sites/" ++ sid ++ "/drives/" ++ did ++ "/items/" ++ iid ++
        "/content") (Msal.get_headers menv tok).2.2 with _ | resp
  · simp [h, acqCount, List.countP_append, List.countP_cons, List.countP_nil, isAcqStart]
  · by_cases hst : resp.status == 200
    · rcases hw : fenv.openWrite lp with _ | _ <;>
        simp [h, hst, hw, acqCount, List.countP_append, List.countP_cons, List.countP_nil,
          isAcqStart]
    · simp [h, hst, acqCount, List.countP_append, List.countP_cons, List.countP_nil, isAcqStart]

/-- A REST read operation performs no acquisition attempt and issues its
    GET request in every branch. -/
theorem restGetJson_attempts (env : HttpEnv) (c : AppOnly.RestClient) (url eh : String) :
    acqCount (AppOnly.restGetJson env c url eh).1 = 0
    ∧ Event.get url c.headers ∈ (AppOnly.restGetJson env c url eh).1 := by
  unfold AppOnly.restGetJson
  rcases h : env.get url c.headers with _ | resp
  · simp [h, acqCount, List.countP_cons, List.countP_nil, isAcqStart]
  · by_cases hst : resp.status == 200 <;>
      simp [h, hst, acqCount, List.countP_cons, List.countP_nil, isAcqStart]

/-- A REST client whose token field was never set. -/
def noTokenRest : AppOnly.RestClient :=
  { site_url := "https://contoso.sharepoint.com/sites/t", access_token := none }

/-- Counterexample to C2: a legacy REST session with an unset cached token
    issues its read request (with the literal header "Bearer None") while
    performing zero token-acquisition attempts, not exactly one. -/
theorem C2_counterexample :
    acqCount (AppOnly.get_web_info env404 noTokenRest).1 = 0
    ∧ (AppOnly.get_web_info env404 noTokenRest).1 =
      [Event.get "https://contoso.sharepoint.com/sites/t/_api/web"
         [("Authorization", "Bearer None"),
          ("Accept", "application/json;odata=verbose"),
          ("Content-Type", "application/json;odata=verbose")],
       Event.printed "Error getting web info: 404 - Not Found"] :=
  ⟨rfl, rfl⟩

/-- C2 (amended): in the Graph session every read operation invoked with an
    unset token performs exactly one acquisition attempt — never a retry,
    whatever the outcome; the legacy REST session never attempts
    acquisition in a read operation, issuing the read with whatever token
    value it holds; the resource-context session issues no remote read at
    all while unauthenticated. -/
theorem C2_single_acquisition_amended :
    (∀ (henv : HttpEnv) (menv : Msal.MsalEnv) (tok : Option String),
       pyTruthy tok = false →
       (∀ sn, acqCount (Msal.get_sharepoint_sites henv menv tok sn).1 = 1)
       ∧ (∀ su, acqCount (Msal.get_site_by_url henv menv tok su).1 = 1)
       ∧ (∀ sid, acqCount (Msal.get_site_drives henv menv tok sid).1 = 1)
       ∧ (∀ sid did fp, acqCount (Msal.get_drive_items henv menv tok sid did fp).1 = 1)
       ∧ (∀ sid did iid, acqCount (Msal.get_excel_worksheets henv menv tok sid did iid).1 = 1)
       ∧ (∀ sid did iid wn ra, acqCount (Msal.get_excel_data henv menv tok sid did iid wn ra).1 = 1)
       ∧ (∀ fenv sid did iid lp,
            acqCount (Msal.download_excel_file henv menv fenv tok sid did iid lp).1 = 1))
    ∧ (∀ (env : HttpEnv) (c : AppOnly.RestClient),
       acqCount (AppOnly.get_web_info env c).1 = 0
       ∧ acqCount (AppOnly.get_lists env c).1 = 0
       ∧ (∀ lt, acqCount (AppOnly.get_list_items env c lt).1 = 0)
       ∧ (∀ lib, acqCount (AppOnly.get_files_in_library env c lib).1 = 0)
       ∧ (∀ u, acqCount (AppOnly.download_file env c u).1 = 0))
    ∧ (∀ (oenv : O365.Env) (c : O365.Client) (lib fp : String), c.ctx = false →
       O365.get_files_in_library oenv c lib fp = ([.printed O365.notAuthMsg], [])) := by
  have hset : ∀ (menv : Msal.MsalEnv) (tok : Option String), pyTruthy tok = false →
      acqCount (Msal.get_headers menv tok).1 = 1 := by
    intro menv tok ht
    rw [msal_headers_attempts, ht]
    simp
  refine ⟨?_, ?_, ?_⟩
  · intro henv menv tok ht
    refine ⟨fun sn => ?_, fun su => ?_, fun sid => ?_, fun sid did fp => ?_,
            fun sid did iid => ?_, fun sid did iid wn ra => ?_, fun fenv sid did iid lp => ?_⟩
    · rw [Msal.get_sharepoint_sites, graphGetJson_attempts]; exact hset menv tok ht
    · rw [Msal.get_site_by_url, graphGetJson_attempts]; exact hset menv tok ht
    · rw [Msal.get_site_drives, graphGetJson_attempts]; exact hset menv tok ht
    · rw [Msal.get_drive_items, graphGetJson_attempts]; exact hset menv tok ht
    · rw [Msal.get_excel_worksheets, graphGetJson_attempts]; exact hset menv tok ht
    · rw [Msal.get_excel_data, graphGetJson_attempts]; exact hset menv tok ht
    · rw [msal_download_attempts]; exact hset menv tok ht
  · intro env c
    exact ⟨(restGetJson_attempts env c _ _).1, (restGetJson_attempts env c _ _).1,
           fun lt => (restGetJson_attempts env c _ _).1,
           fun lib => (restGetJson_attempts env c _ _).1,
           fun u => by
             unfold AppOnly.download_file
             rcases h : env.get (c.site_url ++ "/_api/web/getfilebyserverrelativeurl('" ++ u ++
                 "')/$value") c.headers with _ | resp
             · simp [h, acqCount, List.countP_cons, List.countP_nil, isAcqStart]
             · by_cases hst : resp.status == 200 <;>
                 simp [h, hst, acqCount, List.countP_cons, List.countP_nil, isAcqStart]⟩
  · intro oenv c lib fp h
    simp [O365.get_files_in_library, h]

/-- An MSAL environment in which silent acquisition yields nothing and the
    client-credentials grant returns an error dict. -/
def menvFail : Msal.MsalEnv :=
  { acquireSilent := .ok none,
    acquireForClient := .ok [("error_description", "invalid_client")] }

/-- Witness for the amended C2 at a concrete failing acquisition: the Graph
    sites read performs exactly one acquisition attempt and the REST read
    performs none. -/
theorem C2_single_acquisition_amended_witness :
    acqCount (Msal.get_sharepoint_sites env404 menvFail none none).1 = 1
    ∧ acqCount (AppOnly.get_web_info env404 noTokenRest).1 = 0 :=
  ⟨(C2_single_acquisition_amended.1 env404 menvFail none rfl).1 none,
   (C2_single_acquisition_amended.2.1 env404 noTokenRest).1⟩

/-! Claim C9. -/

/-- When acquisition leaves the cached token unset, `get_headers` leaves the
    token unset and renders the Authorization value as the literal
    "Bearer None". -/
theorem msal_headers_failed (menv : Msal.MsalEnv)
    (hacq : (Msal.get_access_token menv none).2.1 = none) :
    (Msal.get_headers menv none).2.1 = none
    ∧ (Msal.get_headers menv none).2.2 =
        [("Authorization", "Bearer None"), ("Content-Type", "application/json")] := by
  unfold Msal.get_headers
  simp [pyTruthy, hacq, pyStr]

/-- The Graph file download issues its GET request with the headers built by
    `get_headers` in every branch. -/
theorem msal_download_issues (henv : HttpEnv) (menv : Msal.MsalEnv) (fenv : Msal.FsEnv)
    (tok : Option String) (sid did iid lp : String) :
    Event.get (Msal.graph_endpoint ++ "/sites/" ++ sid ++ "/drives/" ++ did ++ "/items/" ++
        iid ++ "/content") (Msal.get_headers menv tok).2.2 ∈
      (Msal.download_excel_file henv menv fenv tok sid did iid lp).1 := by
  unfold Msal.download_excel_file
  rcases h : henv.get
      (Msal.graph_endpoint ++ "/sites/" ++ sid ++ "/drives/" ++ did ++ "/items/" ++ iid ++
        "/content") (Msal.get_headers menv tok).2.2 with _ | resp
  · simp [h]
  · by_cases hst : resp.status == 200
    · rcases hw : fenv.openWrite lp with _ | _ <;> simp [h, hst, hw]
    · simp [h, hst]

/-- C9: in the Graph session, when token acquisition fails with the cached
    token unset, `get_headers` still returns a header mapping whose
    Authorization entry is the literal string "Bearer None", and every read
    and download operation proceeds to issue its request with exactly those
    malformed headers instead of failing fast. -/
theorem C9_bearer_none (menv : Msal.MsalEnv)
    (hacq : (Msal.get_access_token menv none).2.1 = none) :
    (Msal.get_headers menv none).2.2 =
      [("Authorization", "Bearer None"), ("Content-Type", "application/json")]
    ∧ (∀ henv sn, ∃ url, Event.get url
        [("Authorization", "Bearer None"), ("Content-Type", "application/json")] ∈
        (Msal.get_sharepoint_sites henv menv none sn).1)
    ∧ (∀ henv su, ∃ url, Event.get url
        [("Authorization", "Bearer None"), ("Content-Type", "application/json")] ∈
        (Msal.get_site_by_url henv menv none su).1)
    ∧ (∀ henv sid, ∃ url, Event.get url
        [("Authorization", "Bearer None"), ("Content-Type", "application/json")] ∈
        (Msal.get_site_drives henv menv none sid).1)
    ∧ (∀ henv sid did fp, ∃ url, Event.get url
        [("Authorization", "Bearer None"), ("Content-Type", "application/json")] ∈
        (Msal.get_drive_items henv menv none sid did fp).1)
    ∧ (∀ henv sid did iid, ∃ url, Event.get url
        [("Authorization", "Bearer None"), ("Content-Type", "application/json")] ∈
        (Msal.get_excel_worksheets henv menv none sid did iid).1)
    ∧ (∀ henv sid did iid wn ra, ∃ url, Event.get url
        [("Authorization", "Bearer None"), ("Content-Type", "application/json")] ∈
        (Msal.get_excel_data henv menv none sid did iid wn ra).1)
    ∧ (∀ henv fenv sid did iid lp, ∃ url, Event.get url
        [("Authorization", "Bearer None"), ("Content-Type", "application/json")] ∈
        (Msal.download_excel_file henv menv fenv none sid did iid lp).1) := by
  have hb := (msal_headers_failed menv hacq).2
  refine ⟨hb, ?_, ?_, ?_, ?_, ?_, ?_, ?_⟩
  · intro henv sn
    exact ⟨_, by
      rw [← hb]
      simpa only [Msal.get_sharepoint_sites] using graphGetJson_issues henv menv none _ _⟩
  · intro henv su
    exact ⟨_, by
      rw [← hb]
      simpa only [Msal.get_site_by_url] using graphGetJson_issues henv menv none _ _⟩
  · intro henv sid
    exact ⟨_, by
      rw [← hb]
      simpa only [Msal.get_site_drives] using graphGetJson_issues henv menv none _ _⟩
  · intro henv sid did fp
    exact ⟨_, by
      rw [← hb]
      simpa only [Msal.get_drive_items] using graphGetJson_issues henv menv none _ _⟩
  · intro henv sid did iid
    exact ⟨_, by
      rw [← hb]
      simpa only [Msal.get_excel_worksheets] using graphGetJson_issues henv menv none _ _⟩
  · intro henv sid did iid wn ra
    exact ⟨_, by
      rw [← hb]
      simpa only [Msal.get_excel_data] using graphGetJson_issues henv menv none _ _⟩
  · intro henv fenv sid did iid lp
    exact ⟨_, by
      rw [← hb]
      exact msal_download_issues henv menv fenv none sid did iid lp⟩

/-- Witness for C9 at the failing-acquisition MSAL environment. -/
theorem C9_bearer_none_witness :
    (Msal.get_headers menvFail none).2.2 =
      [("Authorization", "Bearer None"), ("Content-Type", "application/json")] :=
  (C9_bearer_none menvFail rfl).1

/-! Claim C1. -/

/-- Counterexample to C1: a transport fault inside the legacy REST client's
    `get_web_info` is not caught — the exception propagates to the caller
    instead of being converted into an empty mapping. -/
theorem C1_counterexample :
    (AppOnly.get_web_info envDown
      { site_url := "https://contoso.sharepoint.com/sites/t",
        access_token := some "tok" }).2 =
      .error (.transport "connection refused") := rfl

/-- A successful `download_file` implies the session was authenticated. -/
theorem download_file_true_ctx (oenv : O365.Env) (c : O365.Client) (u lp : String)
    (h : (O365.download_file oenv c u lp).2 = true) : c.ctx = true := by
  by_cases hc : c.ctx
  · exact hc
  · rw [O365.download_file] at h
    simp [hc] at h

/-- C1 (amended): the resource-context component converts faults of all four
    kinds into False/empty/None return values, and every token-acquisition
    routine converts all its faults into a None return; non-200 responses
    are converted into empty/None/False sentinels in all components; but in
    the legacy REST and Graph clients' read and download operations,
    transport faults, malformed response bodies and local filesystem faults
    are not caught and propagate to the caller. -/
theorem C1_fault_conversion_amended :
    (∀ (oenv : O365.Env) (c : O365.Client) (e : PyErr),
       (oenv.mkContext = .error e → (O365.authenticate oenv c).2.2 = false)
       ∧ (oenv.mkContext = .ok () → oenv.webQuery = .error e →
            (O365.authenticate oenv c).2.2 = false)
       ∧ (oenv.listsQuery = .error e → (O365.get_document_libraries oenv c).2 = [])
       ∧ (∀ lib, oenv.rootFilesQuery lib = .error e →
            (O365.get_files_in_library oenv c lib "").2 = [])
       ∧ (∀ u lp, oenv.makedirs (O365.dirname lp) = .error e →
            (O365.download_file oenv c u lp).2 = false)
       ∧ (∀ u lp, oenv.makedirs (O365.dirname lp) = .ok () → oenv.openWrite lp = .error e →
            (O365.download_file oenv c u lp).2 = false)
       ∧ (∀ u lp, oenv.makedirs (O365.dirname lp) = .ok () → oenv.openWrite lp = .ok () →
            oenv.downloadQuery u = .error e → (O365.download_file oenv c u lp).2 = false)
       ∧ (∀ u sheet, (O365.download_file oenv c u (O365.tempPath u)).2 = true →
            oenv.readExcel (O365.tempPath u) sheet = .error e →
            (O365.download_and_read_excel oenv c u sheet).2 = none)
       ∧ (∀ n f, oenv.itemsQuery n f = .error e → (O365.get_list_items oenv c n f).2 = []))
    ∧ (∀ (env : HttpEnv) (a : AppOnly.Auth) (e : PyErr),
        (∀ url b h, env.post url b h = .error e) →
        (AppOnly.get_access_token env a).2.2 = none)
    ∧ (∀ (menv : Msal.MsalEnv) (tok : Option String) (e : PyErr),
        (menv.acquireSilent = .error e → (Msal.get_access_token menv tok).2.2 = none)
        ∧ (menv.acquireSilent = .ok none → menv.acquireForClient = .error e →
             (Msal.get_access_token menv tok).2.2 = none))
    ∧ (∀ (env : HttpEnv) (c : AppOnly.RestClient) (url eh : String)
        (resp : HttpResponse),
        env.get url c.headers = .ok resp → (resp.status == 200) = false →
        (AppOnly.restGetJson env c url eh).2 = .ok (Json.obj []))
    ∧ (∀ (henv : HttpEnv) (menv : Msal.MsalEnv) (tok : Option String) (url eh : String)
        (resp : HttpResponse),
        henv.get url (Msal.get_headers menv tok).2.2 = .ok resp →
        (resp.status == 200) = false →
        (Msal.graphGetJson henv menv tok url eh).2.2 = .ok (Json.obj []))
    ∧ (∀ (env : HttpEnv) (c : AppOnly.RestClient) (e : PyErr),
        (∀ url h, env.get url h = .error e) → (AppOnly.get_web_info env c).2 = .error e)
    ∧ (∀ (env : HttpEnv) (c : AppOnly.RestClient) (resp : HttpResponse) (e : PyErr),
        (∀ url h, env.get url h = .ok resp) → resp.status = 200 →
        resp.jsonResult = .error e → (AppOnly.get_web_info env c).2 = .error e)
    ∧ (∀ (henv : HttpEnv) (menv : Msal.MsalEnv) (e : PyErr) (tok : Option String)
        (sn : Option String),
        (∀ url h, henv.get url h = .error e) →
        (Msal.get_sharepoint_sites henv menv tok sn).2.2 = .error e)
    ∧ (∀ (henv : HttpEnv) (menv : Msal.MsalEnv) (fenv : Msal.FsEnv) (resp : HttpResponse)
        (e : PyErr) (tok : Option String) (sid did iid lp : String),
        (∀ url h, henv.get url h = .ok resp) → resp.status = 200 →
        fenv.openWrite lp = .error e →
        (Msal.download_excel_file henv menv fenv tok sid did iid lp).2.2 = .error e) := by
  refine ⟨?_, ?_, ?_, ?_, ?_, ?_, ?_, ?_, ?_⟩
  · intro oenv c e
    refine ⟨fun h => ?_, fun h0 h => ?_, fun h => ?_, fun lib h => ?_,
            fun u lp h => ?_, fun u lp h0 h => ?_, fun u lp h0 h1 h => ?_,
            fun u sheet hdl h => ?_, fun n f h => ?_⟩
    · simp [O365.authenticate, h]
    · simp [O365.authenticate, h0, h]
    · by_cases hc : c.ctx <;> simp [O365.get_document_libraries, hc, h]
    · by_cases hc : c.ctx <;> simp [O365.get_files_in_library, hc, h]
    · by_cases hc : c.ctx <;> simp [O365.download_file, hc, h]
    · by_cases hc : c.ctx <;> simp [O365.download_file, hc, h0, h]
    · by_cases hc : c.ctx <;> simp [O365.download_file, hc, h0, h1, h]
    · have hc := download_file_true_ctx oenv c u (O365.tempPath u) hdl
      simp [O365.download_and_read_excel, hc, hdl, h]
    · by_cases hc : c.ctx <;> simp [O365.get_list_items, hc, h]
  · intro env a e hpost
    unfold AppOnly.get_access_token
    rcases hhp : (do
        let afterSlashes ← pyIndex (pySplit a.site_url "//") 1
        pyIndex (pySplit afterSlashes "/") 0 : Except PyErr String) with e' | host <;>
      simp [hhp, hpost]
  · intro menv tok e
    constructor
    · intro h
      simp [Msal.get_access_token, h]
    · intro h0 h
      simp [Msal.get_access_token, h0, h, Msal.dictTruthy]
  · intro env c url eh resp hget hst
    exact restGetJson_non200 env c url eh resp hget hst
  · intro henv menv tok url eh resp hget hst
    exact graphGetJson_non200 henv menv tok url eh resp hget hst
  · intro env c e hget
    simp [AppOnly.get_web_info, AppOnly.restGetJson, hget]
  · intro env c resp e hget hst hjson
    simp [AppOnly.get_web_info, AppOnly.restGetJson, hget, hst, hjson]
  · intro henv menv e tok sn hget
    simp [Msal.get_sharepoint_sites, Msal.graphGetJson, hget]
  · intro henv menv fenv resp e tok sid did iid lp hget hst hw
    simp [Msal.download_excel_file, hget, hst, hw]

/-- An office365 environment whose connectivity-validation round trip
    raises. -/
def o365WebFail : O365.Env :=
  { o365Ok with webQuery := .error (.lib "401 Client Error") }

/-- Witness for the amended C1: the resource-context `authenticate` converts
    a raising validation round trip into False, and the REST client converts
    a 404 into the empty mapping. -/
theorem C1_fault_conversion_amended_witness :
    (O365.authenticate o365WebFail freshClient).2.2 = false
    ∧ (AppOnly.restGetJson env404 noTokenRest
        "https://contoso.sharepoint.com/sites/t/_api/web" "Error getting web info: ").2 =
        .ok (Json.obj []) :=
  ⟨(C1_fault_conversion_amended.1 o365WebFail freshClient (PyErr.lib "401 Client Error")).2.1
      rfl rfl,
   (C1_fault_conversion_amended.2.2.2.1 env404 noTokenRest
      "https://contoso.sharepoint.com/sites/t/_api/web" "Error getting web info: "
      resp404 rfl rfl)⟩
